import Mathlib

/-!
Verification development for `python-s3-utils` (`src/s3_utils/core.py`,
`src/s3_utils/exceptions.py`, `src/s3_utils/helpers.py`).

The library is a thin wrapper around a remote object store.  Each wrapper
method is embedded as a pure Lean function: the remote service's replies
(the outcome of `head_object`, the page returned by `list_objects_v2`, the
`Errors` field of a `delete_objects` response) and the local filesystem
facts the code consults (which directories exist, what a directory listing
contains) are passed in as explicit arguments, and the observable behaviour
(the value returned or the exception raised, plus the side-effect calls the
method issues, in order) is the function's result.

Python `pathlib` operations are modelled on plain strings over the POSIX
separator: `Path(p).name`, `Path(p).parent`, `Path(p).expanduser()`
become `pathName`, `pathParent`, `expanduser` below.  `expanduser` is
modelled for the bare `~` and `~/...` forms (the `~user` form is not used
by the library's callers and is left as the identity, matching the other
"no expansion" paths).
-/

namespace S3Utils

/-- Error object raised by the storage client (`botocore` `ClientError`),
reduced to the only field the library inspects: `e.response["Error"]["Code"]`. -/
structure ClientError where
  Code : String
  deriving Repr, DecidableEq

/-- The outcome of the remote `head_object` metadata probe: success (the key
exists) or a `ClientError`. -/
def HeadResult : Type := Except ClientError Unit

/-- `src/s3_utils/core.py`, `S3Bucket.file_exists`: returns `True` on a
successful probe, `False` when the probe fails with error code `"404"`, and
re-raises any other `ClientError` unchanged. -/
def file_exists (head : Except ClientError Unit) : Except ClientError Bool :=
  match head with
  | .ok _ => .ok true
  | .error e => if e.Code = "404" then .ok false else .error e

/-- An element of the `keys` argument of `delete_files`: a dict of the form
`{"Key": object_key}`. -/
structure ObjectIdentifier where
  Key : String
  deriving Repr, DecidableEq

/-- An element of the `Errors` list of a `delete_objects` response, reduced
to the `Key` field, the only one the library reads. -/
structure S3DeleteError where
  Key : String
  deriving Repr, DecidableEq

/-- The reply of the remote `delete_objects` call.  The `Errors` entry is
optional: the code reads it with `response.get("Errors", [])`. -/
structure DeleteObjectsResponse where
  Errors : Option (List S3DeleteError)
  deriving Repr, DecidableEq

/-- The summary dict built by `delete_files`. -/
structure DeleteOutcome where
  deleted_objects : List ObjectIdentifier
  deleted_count : Nat
  not_deleted_objects : List String
  not_deleted_count : Nat
  deriving Repr, DecidableEq

/-- `src/s3_utils/core.py`, `S3Bucket.delete_files`: issues one batch
`delete_objects` call (whose reply, or raised `ClientError`, is the `resp`
argument), takes the reply's error keys as `not_deleted_objects`, keeps the
input entries whose key is not among them as `deleted_objects`, and returns
the summary with both counts taken as lengths. -/
def delete_files (keys : List ObjectIdentifier)
    (resp : Except ClientError DeleteObjectsResponse) :
    Except ClientError DeleteOutcome :=
  match resp with
  | .error e => .error e
  | .ok response =>
    let errors := response.Errors.getD []
    let not_deleted_objects := errors.map (fun e => e.Key)
    let deleted_objects :=
      keys.filter (fun obj => !(not_deleted_objects.contains obj.Key))
    .ok { deleted_objects := deleted_objects
          deleted_count := deleted_objects.length
          not_deleted_objects := not_deleted_objects
          not_deleted_count := not_deleted_objects.length }

/-- Splitting a character list on a separator character, as
`String.splitOn` does for a one-character separator (the only form the path
model needs).  Structural recursion so that concrete instances evaluate
inside proofs. -/
def splitOnChar (c : Char) : List Char → List (List Char)
  | [] => [[]]
  | a :: as =>
    if a = c then [] :: splitOnChar c as
    else match splitOnChar c as with
      | [] => [[a]]
      | g :: gs => (a :: g) :: gs

/-- Whether `pre` is an initial segment of `s` (the char-level content of
`String.startsWith`). -/
def startsWithChars (pre s : List Char) : Bool :=
  match pre, s with
  | [], _ => true
  | _ :: _, [] => false
  | a :: as, b :: bs => a == b && startsWithChars as bs

/-- `String.startsWith` over the characters of the strings. -/
def strStartsWith (s pre : String) : Bool := startsWithChars pre.data s.data

/-- `String.endsWith` over the characters of the strings. -/
def strEndsWith (s suf : String) : Bool :=
  startsWithChars suf.data.reverse s.data.reverse

/-- Segments of a POSIX path in the sense of `pathlib`: split on the
separator, dropping empty components and `.` components (which `pathlib`
normalises away). -/
def pathSegments (p : String) : List String :=
  ((splitOnChar '/' p.data).map (fun g => String.mk g)).filter
    (fun s => s ≠ "" && s ≠ ".")

/-- Whether a path is absolute (`pathlib`: starts with the separator). -/
def pathIsAbs (p : String) : Bool := strStartsWith p "/"

/-- `Path(p).name`: the final path component (empty for `.`, `/` or the
empty path). -/
def pathName (p : String) : String := (pathSegments p).getLastD ""

/-- Joining path segments with the separator. -/
def joinSegments : List String → String
  | [] => ""
  | [s] => s
  | s :: rest => s ++ "/" ++ joinSegments rest

/-- `Path(p).parent`: all components but the last; `.` for a bare relative
component and `/` at the root, as in `pathlib`. -/
def pathParent (p : String) : String :=
  let segs := pathSegments p
  if segs.length ≤ 1 then (if pathIsAbs p then "/" else ".")
  else (if pathIsAbs p then "/" else "") ++ joinSegments segs.dropLast

/-- `Path(p).expanduser()` with the user's home directory passed explicitly:
a bare `~` becomes `home`, a leading `~/` is replaced by `home ++ "/"`, and
any other path is unchanged (the `~user` form is not modelled and falls in
the unchanged case). -/
def expanduser (home p : String) : String :=
  if p = "~" then home
  else if strStartsWith p "~/" then home ++ String.mk (p.data.drop 1)
  else p

/-- One call to the storage client's `upload_file(file_name, bucket, key)`. -/
structure UploadCall where
  file_name : String
  bucket : String
  key : String
  deriving Repr, DecidableEq

/-- `src/s3_utils/core.py`, `S3Bucket.upload_file`: when `key_name` is
`None` it is replaced by `Path(file_name).name`, then the client upload is
issued.  The Python function is annotated `-> None` and has no `return`
statement, so its return value (the second component) is always `none`. -/
def upload_file (bucket : String) (file_name : String)
    (key_name : Option String) : UploadCall × Option String :=
  let key := match key_name with
    | none => pathName file_name
    | some k => k
  ({ file_name := file_name, bucket := bucket, key := key }, none)

/-- An entry of the local filesystem tree: a regular file or a directory
with its own entries.  `Path.iterdir()` on a directory yields exactly the
immediate entries; `Path.is_file()` is `True` exactly on the `file` nodes. -/
inductive FSNode
  | file (name : String)
  | dir (name : String) (children : List FSNode)

/-- The entry's own name. -/
def FSNode.name : FSNode → String
  | .file n => n
  | .dir n _ => n

/-- `Path.is_file()` for an entry of the tree. -/
def FSNode.is_file : FSNode → Bool
  | .file _ => true
  | .dir _ _ => false

/-- `src/s3_utils/core.py`, `S3Bucket.upload_files`: lists the immediate
entries of the directory (`children` is the `iterdir()` listing of
`directory_path`), keeps those for which `is_file()` holds, and submits
`upload_file(str(f))` — with no key — for each.  The result is the list of
upload calls submitted (the thread pool runs them concurrently; the set of
submitted calls is what the claims are about).  The `s3_folder` parameter
is carried as in the source signature. -/
def upload_files (bucket : String) (directory_path : String)
    (children : List FSNode) (s3_folder : String) : List UploadCall :=
  let files := children.filter FSNode.is_file
  files.map (fun f => (upload_file bucket (directory_path ++ "/" ++ f.name) none).1)

/-- The errors a wrapper method can raise: the library's own
`S3KeyNotFoundError` (`src/s3_utils/exceptions.py`, carrying its message),
a propagated storage-client `ClientError`, or Python's `AttributeError`
raised when an attribute looked up on the object does not exist. -/
inductive PyError
  | s3KeyNotFound (message : String)
  | clientError (e : ClientError)
  | attributeError (attr : String)
  deriving Repr, DecidableEq

/-- A side effect issued on the local machine by a download method, in
order: a `mkdir(parents=True, exist_ok=True)` on a directory, or a storage
client `download_file(bucket, key, dest)` transfer writing `dest`. -/
inductive FSEffect
  | mkdir (path : String)
  | transfer (bucket : String) (key : String) (dest : String)
  deriving Repr, DecidableEq

/-- `src/s3_utils/core.py`, `S3Bucket.download_file`.  `head` is the remote
reply to the `head_object` probe that `file_exists` issues for `key_name`;
`existingDirs` lists the paths for which `Path.is_dir()` is true; `home` is
the user's home directory for `expanduser`.  The method raises
`S3KeyNotFoundError` when the pre-check fails, otherwise defaults
`local_path` to `Path(key_name).expanduser()`, creates the destination's
parent directory when it is not already a directory and is not `"."`, and
issues the transfer to `str(local_path)`. -/
def download_file (bucket home : String) (existingDirs : List String)
    (head : Except ClientError Unit) (key_name : String)
    (local_path : Option String) : Except PyError (List FSEffect) :=
  match file_exists head with
  | .error e => .error (.clientError e)
  | .ok false =>
    .error (.s3KeyNotFound ("Key \"" ++ key_name ++ "\" not found."))
  | .ok true =>
    let lp := match local_path with
      | none => expanduser home key_name
      | some p => p
    let parent_dir := pathParent (expanduser home lp)
    let mkdirs :=
      if !(existingDirs.contains parent_dir) && parent_dir ≠ "." then
        [FSEffect.mkdir parent_dir]
      else []
    .ok (mkdirs ++ [FSEffect.transfer bucket key_name lp])

/-- A listed object, reduced to its key (the remote also reports size and
last-modified date, which the library passes through untouched). -/
structure ObjectDescriptor where
  Key : String
  deriving Repr, DecidableEq

/-- The page cap of the remote `list_objects_v2` call: at most `MaxKeys`
(default 1000) objects per response page. -/
def listPageCap : Nat := 1000

/-- The remote side of one `list_objects_v2(Bucket, Prefix)` call over a
bucket holding `objects`: the first page of the keys matching the prefix
(the `Contents` entry; when nothing matches the entry is absent and
`response.get("Contents", [])` yields `[]`, which coincides with the empty
list here). -/
def list_objects_v2_page (objects : List ObjectDescriptor)
    (pfx : String) : List ObjectDescriptor :=
  (objects.filter (fun o => strStartsWith o.Key pfx)).take listPageCap

/-- `src/s3_utils/core.py`, `S3Bucket.list_objects_by_prefix`: one single
`list_objects_v2` call, returning `response.get("Contents", [])` — no
pagination loop, no continuation token. -/
def list_objects_by_prefix (objects : List ObjectDescriptor)
    (pfx : String) : List ObjectDescriptor :=
  list_objects_v2_page objects pfx

/-- The attributes defined on the `S3Bucket` class and its instances
(`src/s3_utils/core.py`): the two fields set in `__init__` and the declared
methods.  Neither `exists` nor `download` is among them. -/
def s3BucketAttrs : List String :=
  ["client", "bucket", "file_exists", "list_objects_by_prefix",
   "upload_file", "upload_files", "download_file", "download_directory",
   "delete_file", "delete_files"]

/-- Python attribute resolution on an `S3Bucket` instance: succeeds when the
name is defined on the class, raises `AttributeError` otherwise. -/
def resolveAttr (attr : String) : Except PyError Unit :=
  if s3BucketAttrs.contains attr then .ok () else .error (.attributeError attr)

/-- `src/s3_utils/core.py`, `S3Bucket.download_directory`: normalises
`dir_name` to end with `/`, then evaluates `self.exists(dir_name)` — whose
attribute lookup of `exists` precedes any call.  Since `exists` is not an
attribute of the class, the lookup raises and nothing past it runs; the
continuation behind a successful lookup is unreachable and has no source
semantics to translate (the body would go on to call `self.download`, also
undefined), so it is rendered as the empty effect list. -/
def download_directory (dir_name target_dir : String) :
    Except PyError (List FSEffect) :=
  let _dn := if strEndsWith dir_name "/" then dir_name else dir_name ++ "/"
  match resolveAttr "exists" with
  | .error e => .error e
  | .ok _ => .ok []

/-- Modelled from the spec words for `download(key, local_dir)` (spec §4.1):
"Computes a destination path by joining `local_dir` and `key`'s path
segments".  Compared against the embedded `download_file` in the C7
theorems. -/
def specJoinedDest (local_dir key : String) : String :=
  if local_dir = "" then joinSegments (pathSegments key)
  else local_dir ++ "/" ++ joinSegments (pathSegments key)

/-- Discarding every subdirectory's subtree while keeping the entry itself:
used to state that `upload_files` never looks inside subdirectories. -/
def pruneSubtree : FSNode → FSNode
  | .file n => .file n
  | .dir n _ => .dir n []

/-- Key `k<i>` of the i-th object of the concrete large bucket used for the
listing claim. -/
def natKey (n : Nat) : String := "k" ++ String.mk (Nat.toDigits 10 n)

/-- A concrete bucket of `n` distinct objects `k0`, `k1`, …, used as the
failing input of the listing claim. -/
def mkObjects (n : Nat) : List ObjectDescriptor :=
  (List.range n).map (fun i => { Key := natKey i })

end S3Utils

namespace S3Utils

/-- C1: `delete_files` partitions the input keys against the remote's
reported errors: `not_deleted_objects` is exactly the reported error keys,
`deleted_objects` is exactly the input entries whose key is not among them,
both counts are the lengths of those lists, and with no reported errors the
deleted count is the full input length and the error list is empty. -/
theorem delete_files_partitions_input (keys : List ObjectIdentifier)
    (errors : List S3DeleteError) :
    ∃ out, delete_files keys (.ok ⟨some errors⟩) = .ok out ∧
      out.not_deleted_objects = errors.map (fun e => e.Key) ∧
      out.deleted_objects =
        keys.filter (fun o => !((errors.map (fun e => e.Key)).contains o.Key)) ∧
      out.deleted_count = out.deleted_objects.length ∧
      out.not_deleted_count = out.not_deleted_objects.length ∧
      (errors = [] → out.deleted_count = keys.length ∧
        out.not_deleted_objects = []) := by
  refine ⟨_, rfl, rfl, rfl, rfl, rfl, ?_⟩
  rintro rfl
  simp [delete_files]

/-- Witness for C1 at a concrete input: two keys, one reported error. -/
theorem delete_files_partitions_input_witness :
    ∃ out, delete_files [⟨"a"⟩, ⟨"b"⟩] (.ok ⟨some [⟨"b"⟩]⟩) = .ok out ∧
      out.not_deleted_objects = ["b"] ∧
      out.deleted_objects =
        ([⟨"a"⟩, ⟨"b"⟩] : List ObjectIdentifier).filter
          (fun o => !((["b"]).contains o.Key)) ∧
      out.deleted_count = out.deleted_objects.length ∧
      out.not_deleted_count = out.not_deleted_objects.length ∧
      ([(⟨"b"⟩ : S3DeleteError)] = [] →
        out.deleted_count = 2 ∧ out.not_deleted_objects = []) := by
  have h := delete_files_partitions_input [⟨"a"⟩, ⟨"b"⟩] [⟨"b"⟩]
  obtain ⟨out, h1, h2, h3, h4, h5, _⟩ := h
  exact ⟨out, h1, h2, by simpa using h3, h4, h5, by intro h; cases h⟩

/-- C2: `file_exists` returns `true` when the metadata probe succeeds,
returns `false` exactly when the probe raises a `ClientError` with code
`"404"`, and re-raises any other `ClientError` unchanged. -/
theorem file_exists_error_discrimination (head : Except ClientError Unit) :
    (∀ u, head = .ok u → file_exists head = .ok true) ∧
    (file_exists head = .ok false ↔
      ∃ e, head = .error e ∧ e.Code = "404") ∧
    (∀ e, head = .error e → e.Code ≠ "404" → file_exists head = .error e) := by
  refine ⟨?_, ?_, ?_⟩
  · rintro u rfl; rfl
  · constructor
    · intro h
      match head with
      | .ok u => simp [file_exists] at h
      | .error e =>
        refine ⟨e, rfl, ?_⟩
        by_contra hc
        simp [file_exists, hc] at h
    · rintro ⟨e, rfl, hc⟩
      simp [file_exists, hc]
  · rintro e rfl hc
    simp [file_exists, hc]

/-- Witness for C2 at concrete probes: a success, a 404 failure, and a 403
failure. -/
theorem file_exists_error_discrimination_witness :
    file_exists (.ok ()) = .ok true ∧
    file_exists (.error ⟨"404"⟩) = .ok false ∧
    file_exists (.error ⟨"403"⟩) = .error ⟨"403"⟩ := by
  refine ⟨?_, ?_, ?_⟩
  · exact (file_exists_error_discrimination (.ok ())).1 () rfl
  · exact (file_exists_error_discrimination (.error ⟨"404"⟩)).2.1.mpr
      ⟨⟨"404"⟩, rfl, rfl⟩
  · exact (file_exists_error_discrimination (.error ⟨"403"⟩)).2.2 ⟨"403"⟩ rfl
      (by decide)

/-- C6: `delete_files` never raises when the remote's batch call itself
returned a response: whatever failures the response reports in-band are
surfaced only through the `not_deleted_objects` partition of the returned
summary, never as an exception. -/
theorem delete_files_total_on_response (keys : List ObjectIdentifier)
    (response : DeleteObjectsResponse) :
    ∃ out, delete_files keys (.ok response) = .ok out ∧
      out.not_deleted_objects =
        (response.Errors.getD []).map (fun e => e.Key) := by
  exact ⟨_, rfl, rfl⟩

/-- C3: when the existence pre-check reports the key absent,
`download_file` raises `S3KeyNotFoundError` with the source's message — the
result is an error, so no effect list (in particular no transfer) is
produced — and when the pre-check reports the key present this error is
never raised. -/
theorem download_file_key_not_found (bucket home key : String)
    (dirs : List String) (head : Except ClientError Unit)
    (lp : Option String) :
    (file_exists head = .ok false →
      download_file bucket home dirs head key lp =
        .error (.s3KeyNotFound ("Key \"" ++ key ++ "\" not found."))) ∧
    (file_exists head = .ok true →
      ∀ msg, download_file bucket home dirs head key lp ≠
        .error (.s3KeyNotFound msg)) := by
  constructor
  · intro h
    simp [download_file, h]
  · intro h msg
    simp [download_file, h]

/-- Witness for C3: a 404 probe raises the key-not-found error, a
successful probe never does. -/
theorem download_file_key_not_found_witness :
    download_file "b" "/h" [] (.error ⟨"404"⟩) "k.txt" none =
      .error (.s3KeyNotFound ("Key \"" ++ "k.txt" ++ "\" not found.")) ∧
    download_file "b" "/h" [] (.ok ()) "k.txt" none ≠
      .error (.s3KeyNotFound "msg") := by
  constructor
  · exact (download_file_key_not_found "b" "/h" "k.txt" [] (.error ⟨"404"⟩)
      none).1 rfl
  · exact (download_file_key_not_found "b" "/h" "k.txt" [] (.ok ())
      none).2 rfl "msg"

/-- C5 counterexample: with the key omitted, `upload_file` does upload
under the base name, but the Python function returns `None` — neither the
resulting key nor the local path — so the claim's return-value clause fails
at this input. -/
theorem upload_file_returns_none_counterexample :
    (upload_file "b" "dir/f.txt" none).1.key = "f.txt" ∧
    (upload_file "b" "dir/f.txt" none).2 = none ∧
    (upload_file "b" "dir/f.txt" none).2 ≠ some "f.txt" ∧
    (upload_file "b" "dir/f.txt" none).2 ≠ some "dir/f.txt" := by
  refine ⟨rfl, rfl, ?_, ?_⟩ <;> simp [upload_file]

/-- C5 (amended): `upload_file` called with the key omitted uploads the
file under a key equal to the local file's base name, and returns `None`
(the function is annotated `-> None`), not the resulting key. -/
theorem upload_file_basename_key_returns_none (bucket file_name : String) :
    (upload_file bucket file_name none).1 =
      { file_name := file_name, bucket := bucket,
        key := pathName file_name } ∧
    (upload_file bucket file_name none).2 = none :=
  ⟨rfl, rfl⟩

/-- C7 counterexample: for the existing key `a/b.txt` with local argument
`dl` and no pre-existing directories, the code transfers straight to `dl`
and creates nothing, whereas the claim's joined destination is
`dl/a/b.txt`: the observed effects contain neither a transfer to the joined
destination nor a `mkdir` of its missing parent `dl/a`. -/
theorem download_file_dest_not_joined_counterexample :
    download_file "b" "/h" [] (.ok ()) "a/b.txt" (some "dl") =
      .ok [FSEffect.transfer "b" "a/b.txt" "dl"] ∧
    specJoinedDest "dl" "a/b.txt" = "dl/a/b.txt" ∧
    FSEffect.transfer "b" "a/b.txt" (specJoinedDest "dl" "a/b.txt") ∉
      [FSEffect.transfer "b" "a/b.txt" "dl"] ∧
    FSEffect.mkdir (pathParent (specJoinedDest "dl" "a/b.txt")) ∉
      [FSEffect.transfer "b" "a/b.txt" "dl"] := by
  refine ⟨rfl, rfl, ?_, ?_⟩ <;> decide

/-- C7 (amended): for every key the pre-check reports present,
`download_file` transfers to the `local_path` argument itself when one is
given (to `Path(key_name).expanduser()` when omitted) — it does not join a
directory with the key's segments — and issues at most one
`mkdir(parents=True)`, always on the destination's parent and before the
transfer, exactly when that parent is not already a directory and is not
`"."`. -/
theorem download_file_dest_and_mkdir (bucket home key : String)
    (dirs : List String) (head : Except ClientError Unit)
    (lp : Option String) (h : file_exists head = .ok true) :
    ∃ pre,
      download_file bucket home dirs head key lp =
        .ok (pre ++
          [FSEffect.transfer bucket key (lp.getD (expanduser home key))]) ∧
      (pre = [] ∨ pre =
        [FSEffect.mkdir
          (pathParent (expanduser home (lp.getD (expanduser home key))))]) ∧
      (pre ≠ [] ↔
        (dirs.contains
            (pathParent (expanduser home (lp.getD (expanduser home key))))
          = false ∧
         pathParent (expanduser home (lp.getD (expanduser home key)))
          ≠ ".")) := by
  cases lp with
  | none =>
    simp only [download_file, h, Option.getD]
    split
    · rename_i hc
      simp only [Bool.and_eq_true, Bool.not_eq_true', decide_eq_true_eq]
        at hc
      exact ⟨_, rfl, Or.inr rfl, by simpa using hc⟩
    · rename_i hc
      simp only [Bool.and_eq_true, Bool.not_eq_true', decide_eq_true_eq,
        not_and] at hc
      refine ⟨[], rfl, Or.inl rfl, ?_⟩
      simpa using hc
  | some p =>
    simp only [download_file, h, Option.getD]
    split
    · rename_i hc
      simp only [Bool.and_eq_true, Bool.not_eq_true', decide_eq_true_eq]
        at hc
      exact ⟨_, rfl, Or.inr rfl, by simpa using hc⟩
    · rename_i hc
      simp only [Bool.and_eq_true, Bool.not_eq_true', decide_eq_true_eq,
        not_and] at hc
      refine ⟨[], rfl, Or.inl rfl, ?_⟩
      simpa using hc

/-- Witness for C7 (amended): key `a/b.txt`, local path `x/y.txt`, no
existing directories — one `mkdir x` precedes the transfer to `x/y.txt`. -/
theorem download_file_dest_and_mkdir_witness :
    ∃ pre,
      download_file "b" "/h" [] (.ok ()) "a/b.txt" (some "x/y.txt") =
        .ok (pre ++
          [FSEffect.transfer "b" "a/b.txt"
            ((some "x/y.txt").getD (expanduser "/h" "a/b.txt"))]) ∧
      (pre = [] ∨ pre =
        [FSEffect.mkdir
          (pathParent (expanduser "/h"
            ((some "x/y.txt").getD (expanduser "/h" "a/b.txt"))))]) ∧
      (pre ≠ [] ↔
        (([] : List String).contains
            (pathParent (expanduser "/h"
              ((some "x/y.txt").getD (expanduser "/h" "a/b.txt"))))
          = false ∧
         pathParent (expanduser "/h"
            ((some "x/y.txt").getD (expanduser "/h" "a/b.txt")))
          ≠ ".")) :=
  download_file_dest_and_mkdir "b" "/h" "a/b.txt" [] (.ok ())
    (some "x/y.txt") rfl

/-- Helper for C8: dropping every subdirectory's subtree commutes with the
immediate-file filter that `upload_files` applies to the listing. -/
theorem filter_is_file_map_prune (cs : List FSNode) :
    (cs.map pruneSubtree).filter FSNode.is_file =
      (cs.filter FSNode.is_file).map pruneSubtree := by
  induction cs with
  | nil => rfl
  | cons c cs ih => cases c <;> simp [pruneSubtree, FSNode.is_file, ih]

/-- C8: `upload_files` submits exactly one upload per immediate regular
file of the directory listing — entries that are directories are skipped —
and it never traverses into subdirectories: the submitted calls are
invariant under discarding every subdirectory's entire subtree. -/
theorem upload_files_immediate_files_only (bucket directory_path : String)
    (children : List FSNode) (s3_folder : String) :
    (upload_files bucket directory_path children s3_folder).map
        (fun c => c.file_name) =
      (children.filter FSNode.is_file).map
        (fun f => directory_path ++ "/" ++ f.name) ∧
    upload_files bucket directory_path (children.map pruneSubtree)
        s3_folder =
      upload_files bucket directory_path children s3_folder := by
  constructor
  · simp only [upload_files, List.map_map]
    exact List.map_congr_left (fun f _ => rfl)
  · simp only [upload_files, filter_is_file_map_prune, List.map_map]
    exact List.map_congr_left (fun f _ => by cases f <;> rfl)

/-- C9: the `s3_folder` parameter of `upload_files` is accepted but never
used: any two values yield the identical list of upload calls, and each
submitted call carries no explicit key, so every object is keyed by the
uploaded file's base name — never placed under `s3_folder`. -/
theorem upload_files_s3_folder_independent (bucket directory_path : String)
    (children : List FSNode) (s1 s2 : String) :
    upload_files bucket directory_path children s1 =
      upload_files bucket directory_path children s2 ∧
    (upload_files bucket directory_path children s1).map (fun c => c.key) =
      (children.filter FSNode.is_file).map
        (fun f => pathName (directory_path ++ "/" ++ f.name)) := by
  refine ⟨rfl, ?_⟩
  simp only [upload_files, List.map_map]
  exact List.map_congr_left (fun f _ => rfl)

set_option maxRecDepth 100000 in
/-- C4: `list_objects_by_prefix` issues one single `list_objects_v2` call
and returns its `Contents` — there is no pagination loop — so over a bucket
of 2000 objects matching the prefix it returns only the 1000 descriptors of
the first page, not all 2000 as the claim (and the function's own
docstring, "Lists all objects") requires. -/
theorem list_objects_by_prefix_single_page :
    (mkObjects 2000).length = 2000 ∧
    ( list_objects_by_prefix (mkObjects 2000) "").length = 1000 :=
  ⟨rfl, rfl⟩

/-- C10: every invocation of `download_directory` stops at the attribute
lookup of `self.exists`, which raises `AttributeError` because neither
`exists` nor `download` is defined on `S3Bucket`; the result is always that
error, so no effect list is produced and no file is written. -/
theorem download_directory_attribute_error (dir_name target_dir : String) :
    download_directory dir_name target_dir =
      .error (.attributeError "exists") ∧
    s3BucketAttrs.contains "exists" = false ∧
    s3BucketAttrs.contains "download" = false :=
  ⟨rfl, rfl, rfl⟩

end S3Utils
